import Mathlib

/-
Verification development for the alpp OpenAL wrapper (src/AL.hpp, src/AL.cpp).

Modelling conventions, used throughout:

* Native OpenAL / ALC handles (ALuint buffer, source, filter, effect and
  auxiliary-effect-slot names, and ALCdevice* / ALCcontext* pointers) are
  modelled as `Int`, with `0` standing for the null handle / null pointer.
* Each wrapped member function is translated into a Lean function over the
  object's stored handle.  The native driver is external, so every value the
  driver produces (results of get calls, freshly generated handles, and the
  error code that the driver's last-error query reports afterwards) is passed
  to the Lean function as an explicit parameter.
* Besides its result, every operation returns the `List Step` of native driver
  calls and error checks it performs, in order.  `Step.call n a` is a native
  entry point invocation (float arguments are not recorded in the argument
  list, since no claim depends on a float value); `Step.alCheck l` is the
  expansion of the `AL_CHECK_ERROR()` macro at source line `l` of AL.cpp, and
  `Step.alcCheck l` the expansion of `ALC_CHECK_ERROR(device)` at line `l`.
* A thrown C++ exception is modelled by `Except.error msg` where `msg` is the
  text of the `std::runtime_error`.
-/

/-- One observable effect of a wrapped operation: a native driver call, or an
expansion of the AL_CHECK_ERROR / ALC_CHECK_ERROR macro at a given AL.cpp
source line. -/
inductive Step where
  | call (name : String) (args : List Int)
  | alCheck (line : Nat)
  | alcCheck (line : Nat)
deriving DecidableEq

/-- The preprocessor __FILE__ string used by the error-checking macros in
AL.cpp. -/
def alCppFile : String := "AL.cpp"

-- AL error codes, from AL/al.h.
def AL_NO_ERROR : Int := 0
def AL_INVALID_NAME : Int := 0xA001
def AL_INVALID_ENUM : Int := 0xA002
def AL_INVALID_VALUE : Int := 0xA003
def AL_INVALID_OPERATION : Int := 0xA004
def AL_OUT_OF_MEMORY : Int := 0xA005

-- ALC error codes, from AL/alc.h.
def ALC_NO_ERROR : Int := 0
def ALC_INVALID_DEVICE : Int := 0xA001
def ALC_INVALID_CONTEXT : Int := 0xA002
def ALC_INVALID_ENUM : Int := 0xA003
def ALC_INVALID_VALUE : Int := 0xA004
def ALC_OUT_OF_MEMORY : Int := 0xA005

/-- AL.cpp lines 49-64, `alCheckError(file, line)`: reads the driver's
last-error code (passed in here as `err`, since `alGetError()` is a native
call) and, when it is not `AL_NO_ERROR`, switches on it and throws a
`std::runtime_error` naming the code and the call site.  The switch has a
(unreachable) `AL_NO_ERROR` case and no default, so an error code outside the
five listed values falls through and nothing is thrown. -/
def alCheckError (err : Int) (file : String) (line : Nat) : Except String Unit :=
  if err ≠ AL_NO_ERROR then
    if err = AL_INVALID_NAME then
      Except.error ("AL_INVALID_NAME: a bad name (ID) was passed to an OpenAL function at " ++ file ++ ":" ++ toString line)
    else if err = AL_INVALID_ENUM then
      Except.error ("AL_INVALID_ENUM: an invalid enum value was passed to an OpenAL function at " ++ file ++ ":" ++ toString line)
    else if err = AL_INVALID_VALUE then
      Except.error ("AL_INVALID_VALUE: an invalid value was passed to an OpenAL function at " ++ file ++ ":" ++ toString line)
    else if err = AL_INVALID_OPERATION then
      Except.error ("AL_INVALID_OPERATION: the requested operation is not valid at " ++ file ++ ":" ++ toString line)
    else if err = AL_OUT_OF_MEMORY then
      Except.error ("AL_OUT_OF_MEMORY: allocation failed at " ++ file ++ ":" ++ toString line)
    else Except.ok ()
  else Except.ok ()

/-- AL.cpp lines 33-48, `alcCheckError(device, file, line)`: same policy for
the ALC last-error code of a device. -/
def alcCheckError (err : Int) (file : String) (line : Nat) : Except String Unit :=
  if err ≠ ALC_NO_ERROR then
    if err = ALC_INVALID_DEVICE then
      Except.error ("ALC_INVALID_DEVICE: a bad device was passed to an OpenAL function at " ++ file ++ ":" ++ toString line)
    else if err = ALC_INVALID_CONTEXT then
      Except.error ("ALC_INVALID_CONTEXT: a bad context was passed to an OpenAL function at " ++ file ++ ":" ++ toString line)
    else if err = ALC_INVALID_ENUM then
      Except.error ("ALC_INVALID_ENUM: an unknown enum value was passed to an OpenAL function at " ++ file ++ ":" ++ toString line)
    else if err = ALC_INVALID_VALUE then
      Except.error ("ALC_INVALID_VALUE: an invalid value was passed to an OpenAL function at " ++ file ++ ":" ++ toString line)
    else if err = ALC_OUT_OF_MEMORY then
      Except.error ("ALC_OUT_OF_MEMORY: the requested operation resulted in OpenAL running out of memory at " ++ file ++ ":" ++ toString line)
    else Except.ok ()
  else Except.ok ()

/-- Whether `alCheckError` throws for a given error code: a recognized
non-success AL code. -/
def alThrows (err : Int) : Bool :=
  if err = AL_NO_ERROR then false
  else if err = AL_INVALID_NAME then true
  else if err = AL_INVALID_ENUM then true
  else if err = AL_INVALID_VALUE then true
  else if err = AL_INVALID_OPERATION then true
  else if err = AL_OUT_OF_MEMORY then true
  else false

/-- Whether `alcCheckError` throws for a given ALC error code. -/
def alcThrows (err : Int) : Bool :=
  if err = ALC_NO_ERROR then false
  else if err = ALC_INVALID_DEVICE then true
  else if err = ALC_INVALID_CONTEXT then true
  else if err = ALC_INVALID_ENUM then true
  else if err = ALC_INVALID_VALUE then true
  else if err = ALC_OUT_OF_MEMORY then true
  else false

/-- Boolean test for a thrown exception. -/
def isErr : Except String Unit → Bool
  | Except.error _ => true
  | Except.ok _ => false

/- A native call immediately followed by an AL_CHECK_ERROR() expansion: the
body pattern `nativeCall(...); AL_CHECK_ERROR();` used by almost every wrapped
member function in AL.cpp. -/
def alCheckedCall (name : String) (args : List Int) (line : Nat) (err : Int) :
    List Step × Except String Unit :=
  ([Step.call name args, Step.alCheck line], alCheckError err alCppFile line)

/- The corresponding ALC pattern `nativeCall(...); ALC_CHECK_ERROR(device);`. -/
def alcCheckedCall (name : String) (args : List Int) (line : Nat) (err : Int) :
    List Step × Except String Unit :=
  ([Step.call name args, Step.alcCheck line], alcCheckError err alCppFile line)

/- A native call with no error check after it. -/
def uncheckedCall (name : String) (args : List Int) : List Step × Except String Unit :=
  ([Step.call name args], Except.ok ())

/-- Sequential composition of checked/unchecked calls: later calls are not
made once an earlier check has thrown. -/
def seqSteps : List (List Step × Except String Unit) → List Step × Except String Unit
  | [] => ([], Except.ok ())
  | (tr, Except.error e) :: _ => (tr, Except.error e)
  | (tr, Except.ok ()) :: rest =>
    let r := seqSteps rest
    (tr ++ r.1, r.2)

-- =============================================================
-- Format (AL.hpp lines 14-24, AL.cpp lines 154-179)
-- =============================================================

/-- AL.hpp lines 14-22: the `al::Format` enum.  Its six enumerators are the
only values the repository ever constructs, so the enum is modelled as an
inductive over exactly those. -/
inductive Format where
  | Mono8
  | Mono16
  | Stereo8
  | Stereo16
  | MonoF32
  | StereoF32
deriving DecidableEq

/-- The underlying enumerator values of `al::Format` (AL.hpp lines 15-21). -/
def Format.val : Format → Int
  | Format.Mono8 => 0x1100
  | Format.Mono16 => 0x1101
  | Format.Stereo8 => 0x1102
  | Format.Stereo16 => 0x1103
  | Format.MonoF32 => 0x10010
  | Format.StereoF32 => 0x10011

/-- Claim vocabulary: the three mono enumerators of `al::Format`. -/
def Format.isMono : Format → Bool
  | Format.Mono8 => true
  | Format.Mono16 => true
  | Format.MonoF32 => true
  | _ => false

/-- AL.cpp lines 154-167, `MultiChannelFormat(mono, channels)`: returns `mono`
unchanged when `channels == 1`; for `channels == 2` maps the three mono
formats to their stereo counterparts and throws for anything else; throws for
every other channel count. -/
def MultiChannelFormat (mono : Format) (channels : Nat) : Except String Format :=
  if channels = 1 then Except.ok mono
  else if channels = 2 then
    match mono with
    | Format.Mono8 => Except.ok Format.Stereo8
    | Format.Mono16 => Except.ok Format.Stereo16
    | Format.MonoF32 => Except.ok Format.StereoF32
    | _ => Except.error "Argument mono is not a mono format!"
  else Except.error ("Unsupported number of channels: " ++ toString channels)

/-- AL.cpp lines 169-179, `DecomposeFormat(fmt, mono, channels)`: splits a
format into its mono base format and channel count.  The two out-pointers are
modelled as an always-produced pair (the claims call it with both pointers
non-null).  The C++ `default: throw "Unknown format"` branch has no
counterpart here because the modelled enum carries exactly the six declared
enumerators. -/
def DecomposeFormat (fmt : Format) : Except String (Format × Nat) :=
  match fmt with
  | Format.Mono8 => Except.ok (Format.Mono8, 1)
  | Format.Mono16 => Except.ok (Format.Mono16, 1)
  | Format.MonoF32 => Except.ok (Format.MonoF32, 1)
  | Format.Stereo8 => Except.ok (Format.Mono8, 2)
  | Format.Stereo16 => Except.ok (Format.Mono16, 2)
  | Format.StereoF32 => Except.ok (Format.MonoF32, 2)

-- =============================================================
-- Context::Options (AL.hpp lines 68-75)
-- =============================================================

/-- AL.hpp line 69: the options vector starts as `{ 0 }`: just the
terminator. -/
def Context.Options.optionsInit : List Int := [0]

/-- AL.hpp line 72, `Options::add(values)`: inserts the values at
`begin() + size() - 1`, i.e. immediately before the last element of
the vector. -/
def Context.Options.add (options : List Int) (values : List Int) : List Int :=
  options.take (options.length - 1) ++ values ++ options.drop (options.length - 1)

-- =============================================================
-- DeviceView / Device (AL.hpp lines 39-64, AL.cpp lines 73-108)
-- =============================================================

/-- AL.hpp line 49, `DeviceView::operator bool`: `mDeviceHandle != nullptr`. -/
def DeviceView.toBool (mDeviceHandle : Int) : Bool := mDeviceHandle != 0

/-- AL.cpp lines 73-77, `DeviceView::geti`: `alcGetIntegerv` with no error
check; returns whatever the driver wrote into `result`. -/
def DeviceView.geti (mDeviceHandle param driverResult : Int) : List Step × Int :=
  ([Step.call "alcGetIntegerv" [mDeviceHandle, param]], driverResult)

/-- AL.cpp line 78, `DeviceView::gets`: `alcGetString` with no error check. -/
def DeviceView.gets (mDeviceHandle param : Int) : List Step × Except String Unit :=
  uncheckedCall "alcGetString" [mDeviceHandle, param]

/-- AL.cpp line 79, `DeviceView::getStringISOFT`: `alcGetStringiSOFT` with no
error check. -/
def DeviceView.getStringISOFT (mDeviceHandle paramName index : Int) :
    List Step × Except String Unit :=
  uncheckedCall "alcGetStringiSOFT" [mDeviceHandle, paramName, index]

/-- AL.cpp lines 89-93, `Device::Device(const char* name)`: `alcOpenDevice`
with no error check; the handle becomes whatever the driver returned. -/
def Device.openByName (driverDevice : Int) : List Step × Int :=
  ([Step.call "alcOpenDevice" []], driverDevice)

/-- AL.hpp line 63, `Device::release()`: `std::exchange(mDeviceHandle,
nullptr)` — returns the old handle, leaves the object null. -/
def Device.release (mDeviceHandle : Int) : Int × Int := (mDeviceHandle, 0)

/-- AL.cpp lines 94-96, `Device::Device(Device&&)`: takes `other.release()`.
Result: (new object's handle, moved-from object's handle). -/
def Device.moveCtor (src : Int) : Int × Int := (src, 0)

/-- AL.cpp lines 97-103, `Device::operator=(Device&&)`: closes the currently
held device (no error check), then takes `other.release()`.  Result:
(trace, this object's handle, moved-from object's handle). -/
def Device.moveAssign (dst src : Int) : List Step × Int × Int :=
  ((if dst = 0 then [] else [Step.call "alcCloseDevice" [dst]]), src, 0)

/-- AL.cpp lines 104-108, `Device::~Device()`: closes the held device when it
is non-null; no call otherwise, and no error check. -/
def Device.dtor (mDeviceHandle : Int) : List Step :=
  if mDeviceHandle = 0 then [] else [Step.call "alcCloseDevice" [mDeviceHandle]]

-- =============================================================
-- Context (AL.hpp lines 66-93, AL.cpp lines 114-147)
-- =============================================================

/-- AL.cpp lines 136-144, `Context::close()`: returns immediately on a null
context; otherwise queries the context's device, deselects the current
context, destroys the context (each followed by ALC_CHECK_ERROR) and finally
closes the device with no check.  `dev` is the device the driver reports for
the context; `e1 e2 e3` are the ALC error codes the driver reports at the
three checks.  Note the member `mContext` is not reset by close(). -/
def Context.close (mContext dev e1 e2 e3 : Int) : List Step × Except String Unit :=
  if mContext = 0 then ([], Except.ok ())
  else seqSteps
    [alcCheckedCall "alcGetContextsDevice" [mContext] 140 e1,
     alcCheckedCall "alcMakeContextCurrent" [0] 141 e2,
     alcCheckedCall "alcDestroyContext" [mContext] 142 e3,
     uncheckedCall "alcCloseDevice" [dev]]

/-- The tail of AL.cpp lines 125-135 (`Context::init`) after the device has
been obtained: `mContext = alcCreateContext(device, options.get());
ALC_CHECK_ERROR(device); alcMakeContextCurrent(mContext);
ALC_CHECK_ERROR(device); alGetError();`.  `mContext` is assigned the created
context before its check runs, so it holds `createdContext` even when that
check throws. -/
def Context.initRest (tr : List Step) (devUsed : Int) (attrs : List Int)
    (createdContext eCreate eMake : Int) : List Step × Except String Unit × Int :=
  let trc := tr ++ [Step.call "alcCreateContext" (devUsed :: attrs), Step.alcCheck 132]
  match alcCheckError eCreate alCppFile 132 with
  | Except.error e => (trc, Except.error e, createdContext)
  | Except.ok () =>
    let trm := trc ++ [Step.call "alcMakeContextCurrent" [createdContext], Step.alcCheck 133]
    match alcCheckError eMake alCppFile 133 with
    | Except.error e => (trm, Except.error e, createdContext)
    | Except.ok () => (trm ++ [Step.call "alGetError" []], Except.ok (), createdContext)

/-- AL.cpp lines 125-135, `Context::init(options)`: close() first; then the
device is `options.device.release()` (`optDevice`), or `alcOpenDevice(NULL)`
followed by an ALC check when the options supplied none; then create the
context from that device and the options array `attrs` (`options.get()`),
make it current, and clear the AL error state with a bare `alGetError()`.
Result: (trace, outcome, final value of `mContext`). -/
def Context.init (mContext optDevice : Int) (attrs : List Int)
    (defaultDevice createdContext dev e1 e2 e3 eOpen eCreate eMake : Int) :
    List Step × Except String Unit × Int :=
  match Context.close mContext dev e1 e2 e3 with
  | (tr0, Except.error e) => (tr0, Except.error e, mContext)
  | (tr0, Except.ok ()) =>
    if optDevice = 0 then
      match alcCheckError eOpen alCppFile 130 with
      | Except.error e =>
        (tr0 ++ [Step.call "alcOpenDevice" [], Step.alcCheck 130], Except.error e, mContext)
      | Except.ok () =>
        Context.initRest (tr0 ++ [Step.call "alcOpenDevice" [], Step.alcCheck 130])
          defaultDevice attrs createdContext eCreate eMake
    else
      Context.initRest tr0 optDevice attrs createdContext eCreate eMake

/-- AL.cpp lines 145-147, `Context::device()`: `alcGetContextsDevice` with no
error check. -/
def Context.device (mContext driverDevice : Int) : List Step × Int :=
  ([Step.call "alcGetContextsDevice" [mContext]], driverDevice)

-- =============================================================
-- BufferView / Buffer (AL.hpp lines 95-135, AL.cpp lines 185-235)
-- =============================================================

/-- AL.hpp line 115, `BufferView::operator bool`: `mHandle != 0`. -/
def BufferView.toBool (mHandle : Int) : Bool := mHandle != 0

/-- AL.cpp lines 188-190, `BufferView::data`: `alBufferData` followed by
AL_CHECK_ERROR (line 189). -/
def BufferView.data (mHandle fmtVal size freq err : Int) : List Step × Except String Unit :=
  alCheckedCall "alBufferData" [mHandle, fmtVal, size, freq] 189 err

/-- AL.cpp lines 192-196, `BufferView::geti`: `alGetBufferi` followed by
AL_CHECK_ERROR (line 194); returns the driver-written value. -/
def BufferView.geti (mHandle prop driverResult err : Int) : List Step × Except String Int :=
  ([Step.call "alGetBufferi" [mHandle, prop], Step.alCheck 194],
   (alCheckError err alCppFile 194).map (fun _ => driverResult))

/-- AL.cpp lines 230-235, `Buffer::destroy()`: no driver call when the handle
is null; otherwise `alDeleteBuffers` + AL_CHECK_ERROR (line 232), and only
after the check passes is `mHandle` reset to 0.  Result: (trace, outcome,
final `mHandle`). -/
def Buffer.destroy (mHandle err : Int) : List Step × Except String Unit × Int :=
  if mHandle = 0 then ([], Except.ok (), mHandle)
  else
    match alCheckError err alCppFile 232 with
    | Except.error e => ([Step.call "alDeleteBuffers" [mHandle], Step.alCheck 232], Except.error e, mHandle)
    | Except.ok () => ([Step.call "alDeleteBuffers" [mHandle], Step.alCheck 232], Except.ok (), 0)

/-- AL.cpp lines 226-229, `Buffer::gen()`: destroy(), then
`alGenBuffers(1, &mHandle)` — which writes the driver-generated name
`genOut` into `mHandle` — then AL_CHECK_ERROR (line 228).  The handle is
overwritten by the call itself, before the check runs. -/
def Buffer.gen (mHandle errDestroy genOut errGen : Int) : List Step × Except String Unit × Int :=
  match Buffer.destroy mHandle errDestroy with
  | (tr, Except.error e, h) => (tr, Except.error e, h)
  | (tr, Except.ok (), _) =>
    (tr ++ [Step.call "alGenBuffers" [genOut], Step.alCheck 228],
     alCheckError errGen alCppFile 228, genOut)

/-- AL.cpp line 219, `Buffer::Buffer(Buffer&&)`:
`BufferView(std::exchange(src.mHandle, 0))`. -/
def Buffer.moveCtor (src : Int) : Int × Int := (src, 0)

/-- AL.cpp lines 220-224, `Buffer::operator=(Buffer&&)`: destroy(), then
`mHandle = std::exchange(src.mHandle, 0)`.  Result: (trace, outcome,
(this handle, source handle) afterwards). -/
def Buffer.moveAssign (dst src err : Int) : List Step × Except String Unit × Int × Int :=
  match Buffer.destroy dst err with
  | (tr, Except.error e, h) => (tr, Except.error e, h, src)
  | (tr, Except.ok (), _) => (tr, Except.ok (), src, 0)

/-- AL.cpp line 217, `Buffer::~Buffer()`: `destroy()`. -/
def Buffer.dtor (mHandle err : Int) : List Step × Except String Unit × Int :=
  Buffer.destroy mHandle err

-- =============================================================
-- SourceView (AL.hpp lines 276-359, AL.cpp lines 241-345)
-- =============================================================

/-- AL.hpp line 358, `SourceView::operator bool`: `mHandle != 0`. -/
def SourceView.toBool (mHandle : Int) : Bool := mHandle != 0

/-- AL.cpp line 243, `SourceView::play`. -/
def SourceView.play (mHandle err : Int) : List Step × Except String Unit :=
  alCheckedCall "alSourcePlay" [mHandle] 243 err

/-- AL.cpp line 244, `SourceView::pause`. -/
def SourceView.pause (mHandle err : Int) : List Step × Except String Unit :=
  alCheckedCall "alSourcePause" [mHandle] 244 err

/-- AL.cpp line 245, `SourceView::stop`. -/
def SourceView.stop (mHandle err : Int) : List Step × Except String Unit :=
  alCheckedCall "alSourceStop" [mHandle] 245 err

/-- AL.cpp line 246, `SourceView::rewind`. -/
def SourceView.rewind (mHandle err : Int) : List Step × Except String Unit :=
  alCheckedCall "alSourceRewind" [mHandle] 246 err

/-- AL.cpp lines 248-255, `SourceView::queueBuffers(buffers, count)`:
`alSourceQueueBuffers(mHandle, count, (unsigned const*)buffers)` followed by
AL_CHECK_ERROR (line 254).  The driver reads `count` handles from the array
(the `static_assert` guarantees a BufferView is exactly its handle). -/
def SourceView.queueBuffers (mHandle : Int) (buffers : List Int) (count : Nat) (err : Int) :
    List Step × Except String Unit :=
  alCheckedCall "alSourceQueueBuffers" ([mHandle, (count : Int)] ++ buffers.take count) 254 err

/-- AL.cpp lines 256-263, `SourceView::unqueueBuffers(buffers, count)`:
`alSourceUnqueueBuffers(mHandle, count, (unsigned*)buffers)` followed by
AL_CHECK_ERROR (line 262).  `written i` is the handle the driver writes into
slot `i` of the out array; the third component is the array contents the
caller observes. -/
def SourceView.unqueueBuffers (mHandle : Int) (count : Nat) (written : Nat → Int) (err : Int) :
    List Step × Except String Unit × List Int :=
  ([Step.call "alSourceUnqueueBuffers" [mHandle, (count : Int)], Step.alCheck 262],
   alCheckError err alCppFile 262,
   (List.range count).map written)

/-- AL.cpp lines 264-266, `SourceView::queueBuffer(buffer)`:
`queueBuffers(&buffer, 1)`. -/
def SourceView.queueBuffer (mHandle buffer err : Int) : List Step × Except String Unit :=
  SourceView.queueBuffers mHandle [buffer] 1 err

/-- AL.cpp lines 267-271, `SourceView::unqueueBuffer()`: default-constructs a
BufferView (handle 0), calls `unqueueBuffers(&result, 1)` and returns the
element the driver wrote. -/
def SourceView.unqueueBuffer (mHandle : Int) (written : Nat → Int) (err : Int) :
    List Step × Except String Unit × Int :=
  let r := SourceView.unqueueBuffers mHandle 1 written err
  (r.1, r.2.1, r.2.2.headD 0)

/-- AL.cpp lines 273-277, `SourceView::getf`. -/
def SourceView.getf (mHandle prop err : Int) : List Step × Except String Unit :=
  alCheckedCall "alGetSourcef" [mHandle, prop] 275 err

/-- AL.cpp lines 278-282, `SourceView::geti`. -/
def SourceView.geti (mHandle prop driverResult err : Int) : List Step × Except String Int :=
  ([Step.call "alGetSourcei" [mHandle, prop], Step.alCheck 280],
   (alCheckError err alCppFile 280).map (fun _ => driverResult))

/-- AL.cpp lines 283-287, `SourceView::get3f`. -/
def SourceView.get3f (mHandle prop err : Int) : List Step × Except String Unit :=
  alCheckedCall "alGetSourcefv" [mHandle, prop] 285 err

/-- AL.cpp line 288, `SourceView::set(unsigned, float)`. -/
def SourceView.setf (mHandle prop err : Int) : List Step × Except String Unit :=
  alCheckedCall "alSourcef" [mHandle, prop] 288 err

/-- AL.cpp line 289, `SourceView::set(unsigned, int)`. -/
def SourceView.seti (mHandle prop value err : Int) : List Step × Except String Unit :=
  alCheckedCall "alSourcei" [mHandle, prop, value] 289 err

/-- AL.cpp line 290, `SourceView::set(unsigned, glm::vec3)`. -/
def SourceView.set3f (mHandle prop err : Int) : List Step × Except String Unit :=
  alCheckedCall "alSource3f" [mHandle, prop] 290 err

/-- AL.cpp lines 336-338, `SourceView::auxiliary_send_filter`: `alSource3i`
with AL_AUXILIARY_SEND_FILTER, followed by AL_CHECK_ERROR (line 337). -/
def SourceView.auxiliary_send_filter (mHandle sendIndex effectsSlot filterHandle err : Int) :
    List Step × Except String Unit :=
  alCheckedCall "alSource3i" [mHandle, effectsSlot, sendIndex, filterHandle] 337 err

-- =============================================================
-- Source (AL.hpp lines 361-375, AL.cpp lines 351-382)
-- =============================================================

/-- AL.cpp lines 377-382, `Source::destroy()`: same shape as Buffer::destroy,
with `alDeleteSources` + AL_CHECK_ERROR (line 379). -/
def Source.destroy (mHandle err : Int) : List Step × Except String Unit × Int :=
  if mHandle = 0 then ([], Except.ok (), mHandle)
  else
    match alCheckError err alCppFile 379 with
    | Except.error e => ([Step.call "alDeleteSources" [mHandle], Step.alCheck 379], Except.error e, mHandle)
    | Except.ok () => ([Step.call "alDeleteSources" [mHandle], Step.alCheck 379], Except.ok (), 0)

/-- AL.cpp lines 373-376, `Source::gen()`: destroy(), then
`alGenSources(1, &mHandle)` writes `genOut` into `mHandle`, then
AL_CHECK_ERROR (line 375). -/
def Source.gen (mHandle errDestroy genOut errGen : Int) : List Step × Except String Unit × Int :=
  match Source.destroy mHandle errDestroy with
  | (tr, Except.error e, h) => (tr, Except.error e, h)
  | (tr, Except.ok (), _) =>
    (tr ++ [Step.call "alGenSources" [genOut], Step.alCheck 375],
     alCheckError errGen alCppFile 375, genOut)

/-- AL.cpp line 366, `Source::Source(Source&&)`:
`SourceView(std::exchange(src.mHandle, 0))`. -/
def Source.moveCtor (src : Int) : Int × Int := (src, 0)

/-- AL.cpp lines 367-371, `Source::operator=(Source&&)`: destroy(), then
`mHandle = std::exchange(src.mHandle, 0)`. -/
def Source.moveAssign (dst src err : Int) : List Step × Except String Unit × Int × Int :=
  match Source.destroy dst err with
  | (tr, Except.error e, h) => (tr, Except.error e, h, src)
  | (tr, Except.ok (), _) => (tr, Except.ok (), src, 0)

/-- AL.cpp lines 362-364, `Source::~Source()`: `destroy()`. -/
def Source.dtor (mHandle err : Int) : List Step × Except String Unit × Int :=
  Source.destroy mHandle err

-- =============================================================
-- Listener (AL.hpp lines 377-395, AL.cpp lines 388-418)
-- =============================================================

/-- AL.cpp line 388, `Listener::set(unsigned, int)`. -/
def Listener.seti (param value err : Int) : List Step × Except String Unit :=
  alCheckedCall "alListeneri" [param, value] 388 err

/-- AL.cpp line 389, `Listener::set(unsigned, float)`. -/
def Listener.setf (param err : Int) : List Step × Except String Unit :=
  alCheckedCall "alListenerf" [param] 389 err

/-- AL.cpp line 390, `Listener::set(unsigned, glm::vec3)`. -/
def Listener.set3f (param err : Int) : List Step × Except String Unit :=
  alCheckedCall "alListener3f" [param] 390 err

/-- AL.cpp lines 392-396, `Listener::geti`. -/
def Listener.geti (param driverResult err : Int) : List Step × Except String Int :=
  ([Step.call "alGetListeneri" [param], Step.alCheck 394],
   (alCheckError err alCppFile 394).map (fun _ => driverResult))

/-- AL.cpp lines 397-401, `Listener::getf`. -/
def Listener.getf (param err : Int) : List Step × Except String Unit :=
  alCheckedCall "alGetListenerf" [param] 399 err

/-- AL.cpp lines 402-406, `Listener::get3f`. -/
def Listener.get3f (param err : Int) : List Step × Except String Unit :=
  alCheckedCall "alGetListenerfv" [param] 404 err

/-- AL.cpp lines 415-418, `Listener::orientation`: `alListenerfv` with
AL_ORIENTATION (0x100F), followed by AL_CHECK_ERROR (line 417). -/
def Listener.orientation (err : Int) : List Step × Except String Unit :=
  alCheckedCall "alListenerfv" [0x100F] 417 err

-- =============================================================
-- FilterView / Filter (AL.hpp lines 144-184, AL.cpp lines 425-466)
-- =============================================================

-- EFX parameter enums used with fixed values in AL.cpp, from AL/efx.h.
def AL_FILTER_TYPE : Int := 0x8001
def AL_EFFECT_TYPE : Int := 0x8001
def AL_EFFECTSLOT_EFFECT : Int := 0x0001
def AL_EFFECTSLOT_GAIN : Int := 0x0002
def AL_EFFECTSLOT_AUXILIARY_SEND_AUTO : Int := 0x0003

/-- AL.hpp line 169, `FilterView::operator bool`: `return mHandle;` — the
C++ unsigned-to-bool conversion, true exactly for a non-zero handle. -/
def FilterView.toBool (mHandle : Int) : Bool := mHandle != 0

/-- AL.cpp lines 425-429, `FilterView::type()` (the getter): `alGetFilteri`
with AL_FILTER_TYPE, followed by AL_CHECK_ERROR (line 427). -/
def FilterView.typeGet (mHandle driverResult err : Int) : List Step × Except String Int :=
  ([Step.call "alGetFilteri" [mHandle, AL_FILTER_TYPE], Step.alCheck 427],
   (alCheckError err alCppFile 427).map (fun _ => driverResult))

/-- AL.cpp line 438, `FilterView::set(int, int)`. -/
def FilterView.seti (mHandle param value err : Int) : List Step × Except String Unit :=
  alCheckedCall "alFilteri" [mHandle, param, value] 438 err

/-- AL.cpp line 439, `FilterView::set(int, float)`. -/
def FilterView.setf (mHandle param err : Int) : List Step × Except String Unit :=
  alCheckedCall "alFilterf" [mHandle, param] 439 err

/-- AL.cpp lines 440-444, `FilterView::geti`. -/
def FilterView.geti (mHandle param driverResult err : Int) : List Step × Except String Int :=
  ([Step.call "alGetFilteri" [mHandle, param], Step.alCheck 442],
   (alCheckError err alCppFile 442).map (fun _ => driverResult))

/-- AL.cpp lines 445-449, `FilterView::getf`. -/
def FilterView.getf (mHandle param err : Int) : List Step × Except String Unit :=
  alCheckedCall "alGetFilterf" [mHandle, param] 447 err

/-- AL.cpp lines 462-466, `Filter::destroy()`: early return on a null handle;
otherwise `alDeleteFilters` + AL_CHECK_ERROR (line 464), then `mHandle = 0`. -/
def Filter.destroy (mHandle err : Int) : List Step × Except String Unit × Int :=
  if mHandle = 0 then ([], Except.ok (), mHandle)
  else
    match alCheckError err alCppFile 464 with
    | Except.error e => ([Step.call "alDeleteFilters" [mHandle], Step.alCheck 464], Except.error e, mHandle)
    | Except.ok () => ([Step.call "alDeleteFilters" [mHandle], Step.alCheck 464], Except.ok (), 0)

/-- AL.cpp lines 458-461, `Filter::gen()`: destroy(), then
`alGenFilters(1, &mHandle)` writes `genOut`, then AL_CHECK_ERROR (line 460). -/
def Filter.gen (mHandle errDestroy genOut errGen : Int) : List Step × Except String Unit × Int :=
  match Filter.destroy mHandle errDestroy with
  | (tr, Except.error e, h) => (tr, Except.error e, h)
  | (tr, Except.ok (), _) =>
    (tr ++ [Step.call "alGenFilters" [genOut], Step.alCheck 460],
     alCheckError errGen alCppFile 460, genOut)

/-- AL.cpp line 457, `Filter::~Filter()`: `destroy()`. -/
def Filter.dtor (mHandle err : Int) : List Step × Except String Unit × Int :=
  Filter.destroy mHandle err

-- =============================================================
-- EffectView / Effect (AL.hpp lines 203-247, AL.cpp lines 472-522)
-- =============================================================

/-- AL.hpp line 232, `EffectView::operator bool`: `return mHandle;`. -/
def EffectView.toBool (mHandle : Int) : Bool := mHandle != 0

/-- AL.cpp lines 475-477, `EffectView::type(EffectType)` (the setter):
`alEffecti(mHandle, AL_EFFECT_TYPE, effectType)` + AL_CHECK_ERROR (line
476). -/
def EffectView.typeSet (mHandle effectType err : Int) : List Step × Except String Unit :=
  alCheckedCall "alEffecti" [mHandle, AL_EFFECT_TYPE, effectType] 476 err

/-- AL.cpp line 478, `EffectView::set(int, float)`: `alEffectf`. -/
def EffectView.setf (mHandle param err : Int) : List Step × Except String Unit :=
  alCheckedCall "alEffectf" [mHandle, param] 478 err

/-- AL.cpp line 479, `EffectView::set(int, int)`: `alEffecti`. -/
def EffectView.seti (mHandle param value err : Int) : List Step × Except String Unit :=
  alCheckedCall "alEffecti" [mHandle, param, value] 479 err

/-- AL.cpp lines 480-484, `EffectView::geti`: as written in the source, the
native call made is `alGetFilteri` — the filter-parameter query — on the
effect handle, followed by AL_CHECK_ERROR (line 482). -/
def EffectView.geti (mHandle param driverResult err : Int) : List Step × Except String Int :=
  ([Step.call "alGetFilteri" [mHandle, param], Step.alCheck 482],
   (alCheckError err alCppFile 482).map (fun _ => driverResult))

/-- AL.cpp lines 485-489, `EffectView::getf`: as written in the source, the
native call made is `alGetFilterf` on the effect handle, followed by
AL_CHECK_ERROR (line 487). -/
def EffectView.getf (mHandle param err : Int) : List Step × Except String Unit :=
  alCheckedCall "alGetFilterf" [mHandle, param] 487 err

/-- AL.cpp lines 517-522, `Effect::destroy()`: early return on a null handle;
otherwise `alDeleteEffects` + AL_CHECK_ERROR (line 520), then `mHandle = 0`. -/
def Effect.destroy (mHandle err : Int) : List Step × Except String Unit × Int :=
  if mHandle = 0 then ([], Except.ok (), mHandle)
  else
    match alCheckError err alCppFile 520 with
    | Except.error e => ([Step.call "alDeleteEffects" [mHandle], Step.alCheck 520], Except.error e, mHandle)
    | Except.ok () => ([Step.call "alDeleteEffects" [mHandle], Step.alCheck 520], Except.ok (), 0)

/-- AL.cpp lines 513-516, `Effect::gen()`: destroy(), then
`alGenEffects(1, &mHandle)` writes `genOut`, then AL_CHECK_ERROR (line
515). -/
def Effect.gen (mHandle errDestroy genOut errGen : Int) : List Step × Except String Unit × Int :=
  match Effect.destroy mHandle errDestroy with
  | (tr, Except.error e, h) => (tr, Except.error e, h)
  | (tr, Except.ok (), _) =>
    (tr ++ [Step.call "alGenEffects" [genOut], Step.alCheck 515],
     alCheckError errGen alCppFile 515, genOut)

/-- AL.cpp line 512, `Effect::~Effect()`: `destroy()`. -/
def Effect.dtor (mHandle err : Int) : List Step × Except String Unit × Int :=
  Effect.destroy mHandle err

-- =============================================================
-- AuxiliaryEffectsSlotView / AuxiliaryEffectsSlot
-- (AL.hpp lines 249-274, AL.cpp lines 528-556)
-- =============================================================

/-- AL.hpp line 259, `AuxiliaryEffectsSlotView::operator bool`:
`return mHandle;`. -/
def AuxiliaryEffectsSlotView.toBool (mHandle : Int) : Bool := mHandle != 0

/-- AL.cpp lines 531-533, `AuxiliaryEffectsSlotView::effect(EffectView)`:
`alAuxiliaryEffectSloti` + AL_CHECK_ERROR (line 532). -/
def AuxiliaryEffectsSlotView.effect (mHandle effectHandle err : Int) :
    List Step × Except String Unit :=
  alCheckedCall "alAuxiliaryEffectSloti" [mHandle, AL_EFFECTSLOT_EFFECT, effectHandle] 532 err

/-- AL.cpp lines 534-536, `AuxiliaryEffectsSlotView::gain(float)`:
`alAuxiliaryEffectSlotf(mHandle, AL_EFFECTSLOT_GAIN, f)` with NO error check
after it — the body contains no AL_CHECK_ERROR. -/
def AuxiliaryEffectsSlotView.gain (mHandle : Int) : List Step × Except String Unit :=
  uncheckedCall "alAuxiliaryEffectSlotf" [mHandle, AL_EFFECTSLOT_GAIN]

/-- AL.cpp lines 537-539, `AuxiliaryEffectsSlotView::auxiliarySendAuto(bool)`:
`alAuxiliaryEffectSloti(mHandle, AL_EFFECTSLOT_AUXILIARY_SEND_AUTO, b)` with
NO error check after it. -/
def AuxiliaryEffectsSlotView.auxiliarySendAuto (mHandle value : Int) :
    List Step × Except String Unit :=
  uncheckedCall "alAuxiliaryEffectSloti" [mHandle, AL_EFFECTSLOT_AUXILIARY_SEND_AUTO, value]

/-- AL.cpp lines 551-556, `AuxiliaryEffectsSlot::destroy()`: early return on
a null handle; otherwise `alDeleteAuxiliaryEffectSlots` + AL_CHECK_ERROR
(line 554), then `mHandle = 0`. -/
def AuxiliaryEffectsSlot.destroy (mHandle err : Int) : List Step × Except String Unit × Int :=
  if mHandle = 0 then ([], Except.ok (), mHandle)
  else
    match alCheckError err alCppFile 554 with
    | Except.error e => ([Step.call "alDeleteAuxiliaryEffectSlots" [mHandle], Step.alCheck 554], Except.error e, mHandle)
    | Except.ok () => ([Step.call "alDeleteAuxiliaryEffectSlots" [mHandle], Step.alCheck 554], Except.ok (), 0)

/-- AL.cpp lines 547-550, `AuxiliaryEffectsSlot::gen()`: destroy(), then
`alGenAuxiliaryEffectSlots(1, &mHandle)` writes `genOut`, then
AL_CHECK_ERROR (line 549). -/
def AuxiliaryEffectsSlot.gen (mHandle errDestroy genOut errGen : Int) :
    List Step × Except String Unit × Int :=
  match AuxiliaryEffectsSlot.destroy mHandle errDestroy with
  | (tr, Except.error e, h) => (tr, Except.error e, h)
  | (tr, Except.ok (), _) =>
    (tr ++ [Step.call "alGenAuxiliaryEffectSlots" [genOut], Step.alCheck 549],
     alCheckError errGen alCppFile 549, genOut)

/-- AL.cpp line 546, `AuxiliaryEffectsSlot::~AuxiliaryEffectsSlot()`:
`destroy()`. -/
def AuxiliaryEffectsSlot.dtor (mHandle err : Int) : List Step × Except String Unit × Int :=
  AuxiliaryEffectsSlot.destroy mHandle err

-- =============================================================
-- Special member functions of the owning types (AL.hpp)
-- =============================================================

/-- Availability of the copy/move special member functions of a C++ type:
`true` when the member is declared and usable, `false` when it is deleted
(or suppressed). -/
structure SpecialMembers where
  hasCopyCtor : Bool
  hasCopyAssign : Bool
  hasMoveCtor : Bool
  hasMoveAssign : Bool
deriving DecidableEq

/-- AL.hpp lines 58-61: Device declares move ctor/assign, deletes both copy
operations. -/
def Device.specialMembers : SpecialMembers :=
  { hasCopyCtor := false, hasCopyAssign := false, hasMoveCtor := true, hasMoveAssign := true }

/-- AL.hpp lines 127-131: Buffer declares move ctor/assign, deletes both copy
operations. -/
def Buffer.specialMembers : SpecialMembers :=
  { hasCopyCtor := false, hasCopyAssign := false, hasMoveCtor := true, hasMoveAssign := true }

/-- AL.hpp lines 367-371: Source declares move ctor/assign, deletes both copy
operations. -/
def Source.specialMembers : SpecialMembers :=
  { hasCopyCtor := false, hasCopyAssign := false, hasMoveCtor := true, hasMoveAssign := true }

/-- AL.hpp lines 177-180: Filter deletes ALL four special members — both copy
operations AND both move operations. -/
def Filter.specialMembers : SpecialMembers :=
  { hasCopyCtor := false, hasCopyAssign := false, hasMoveCtor := false, hasMoveAssign := false }

/-- AL.hpp lines 240-243: Effect deletes all four special members. -/
def Effect.specialMembers : SpecialMembers :=
  { hasCopyCtor := false, hasCopyAssign := false, hasMoveCtor := false, hasMoveAssign := false }

/-- AL.hpp lines 267-270: AuxiliaryEffectsSlot deletes all four special
members. -/
def AuxiliaryEffectsSlot.specialMembers : SpecialMembers :=
  { hasCopyCtor := false, hasCopyAssign := false, hasMoveCtor := false, hasMoveAssign := false }

/-- Claim vocabulary for C3: copy construction and copy assignment are
prohibited while move construction and move assignment are available. -/
def moveOnlyValueType (m : SpecialMembers) : Bool :=
  !m.hasCopyCtor && !m.hasCopyAssign && m.hasMoveCtor && m.hasMoveAssign

-- =============================================================
-- The table of wrapped operations and their driver-call traces
-- =============================================================

/-- Whether a step is an error-check macro expansion. -/
def isCheck : Step → Bool
  | Step.alCheck _ => true
  | Step.alcCheck _ => true
  | Step.call _ _ => false

/-- Whether every native driver call in a trace is immediately followed by an
error-check step. -/
def allCallsChecked : List Step → Bool
  | [] => true
  | Step.call _ _ :: rest =>
    match rest with
    | [] => false
    | s :: _ => isCheck s && allCallsChecked rest
  | Step.alCheck _ :: rest => allCallsChecked rest
  | Step.alcCheck _ :: rest => allCallsChecked rest

/-- Every wrapped operation of AL.cpp that invokes native driver entry points
directly, paired with the trace it produces at a representative input
(non-null handles, distinct small arguments, every driver-reported error code
`AL(C)_NO_ERROR` so that no check throws and the whole body runs).  Member
functions that only delegate to the operations below (the named property
accessors such as `SourceView::pitch`, `BufferView::frequency`,
`FilterView::lowpass_gain` or `EffectView::reverbGain`) make their native
calls through these and are covered by them. -/
def wrappedOpTraces : List (String × List Step) :=
  [("DeviceView.geti", (DeviceView.geti 1 2 3).1),
   ("DeviceView.gets", (DeviceView.gets 1 2).1),
   ("DeviceView.getStringISOFT", (DeviceView.getStringISOFT 1 2 0).1),
   ("Device.openByName", (Device.openByName 1).1),
   ("Device.moveAssign", (Device.moveAssign 1 2).1),
   ("Device.dtor", Device.dtor 1),
   ("Context.init", (Context.init 1 2 [4] 5 6 7 0 0 0 0 0 0).1),
   ("Context.close", (Context.close 1 5 0 0 0).1),
   ("Context.device", (Context.device 1 2).1),
   ("BufferView.data", (BufferView.data 1 2 3 4 0).1),
   ("BufferView.geti", (BufferView.geti 1 2 3 0).1),
   ("Buffer.gen", (Buffer.gen 1 0 2 0).1),
   ("Buffer.destroy", (Buffer.destroy 1 0).1),
   ("SourceView.play", (SourceView.play 1 0).1),
   ("SourceView.pause", (SourceView.pause 1 0).1),
   ("SourceView.stop", (SourceView.stop 1 0).1),
   ("SourceView.rewind", (SourceView.rewind 1 0).1),
   ("SourceView.queueBuffers", (SourceView.queueBuffers 1 [2, 3] 2 0).1),
   ("SourceView.unqueueBuffers", (SourceView.unqueueBuffers 1 2 (fun _ => 2) 0).1),
   ("SourceView.queueBuffer", (SourceView.queueBuffer 1 2 0).1),
   ("SourceView.unqueueBuffer", (SourceView.unqueueBuffer 1 (fun _ => 2) 0).1),
   ("SourceView.getf", (SourceView.getf 1 2 0).1),
   ("SourceView.geti", (SourceView.geti 1 2 3 0).1),
   ("SourceView.get3f", (SourceView.get3f 1 2 0).1),
   ("SourceView.setf", (SourceView.setf 1 2 0).1),
   ("SourceView.seti", (SourceView.seti 1 2 3 0).1),
   ("SourceView.set3f", (SourceView.set3f 1 2 0).1),
   ("SourceView.auxiliary_send_filter", (SourceView.auxiliary_send_filter 1 0 2 3 0).1),
   ("Source.gen", (Source.gen 1 0 2 0).1),
   ("Source.destroy", (Source.destroy 1 0).1),
   ("Listener.seti", (Listener.seti 1 2 0).1),
   ("Listener.setf", (Listener.setf 1 0).1),
   ("Listener.set3f", (Listener.set3f 1 0).1),
   ("Listener.geti", (Listener.geti 1 2 0).1),
   ("Listener.getf", (Listener.getf 1 0).1),
   ("Listener.get3f", (Listener.get3f 1 0).1),
   ("Listener.orientation", (Listener.orientation 0).1),
   ("FilterView.typeGet", (FilterView.typeGet 1 2 0).1),
   ("FilterView.seti", (FilterView.seti 1 2 3 0).1),
   ("FilterView.setf", (FilterView.setf 1 2 0).1),
   ("FilterView.geti", (FilterView.geti 1 2 3 0).1),
   ("FilterView.getf", (FilterView.getf 1 2 0).1),
   ("Filter.gen", (Filter.gen 1 0 2 0).1),
   ("Filter.destroy", (Filter.destroy 1 0).1),
   ("EffectView.typeSet", (EffectView.typeSet 1 2 0).1),
   ("EffectView.setf", (EffectView.setf 1 2 0).1),
   ("EffectView.seti", (EffectView.seti 1 2 3 0).1),
   ("EffectView.geti", (EffectView.geti 1 2 3 0).1),
   ("EffectView.getf", (EffectView.getf 1 2 0).1),
   ("Effect.gen", (Effect.gen 1 0 2 0).1),
   ("Effect.destroy", (Effect.destroy 1 0).1),
   ("AuxiliaryEffectsSlotView.effect", (AuxiliaryEffectsSlotView.effect 1 2 0).1),
   ("AuxiliaryEffectsSlotView.gain", (AuxiliaryEffectsSlotView.gain 1).1),
   ("AuxiliaryEffectsSlotView.auxiliarySendAuto", (AuxiliaryEffectsSlotView.auxiliarySendAuto 1 1).1),
   ("AuxiliaryEffectsSlot.gen", (AuxiliaryEffectsSlot.gen 1 0 2 0).1),
   ("AuxiliaryEffectsSlot.destroy", (AuxiliaryEffectsSlot.destroy 1 0).1)]

/-- The wrapped operations that make at least one native driver call with no
error check after it: the DeviceView accessors, device open/close (the ALC
error query itself needs a device, and these run where none is reliably
available), `Context::device`, the final `alcCloseDevice` of
`Context::close`, the deliberate error-state-clearing `alGetError()` at the
end of `Context::init`, and the two auxiliary-effect-slot setters
`gain` / `auxiliarySendAuto`, whose bodies simply lack the AL_CHECK_ERROR
macro that their sibling `effect` has. -/
def uncheckedOps : List String :=
  ["DeviceView.geti", "DeviceView.gets", "DeviceView.getStringISOFT",
   "Device.openByName", "Device.moveAssign", "Device.dtor",
   "Context.init", "Context.close", "Context.device",
   "AuxiliaryEffectsSlotView.gain", "AuxiliaryEffectsSlotView.auxiliarySendAuto"]

-- =============================================================
-- =============================================================
-- Theorems
-- =============================================================
-- =============================================================

theorem isErr_alCheckError (err : Int) (f : String) (l : Nat) :
    isErr (alCheckError err f l) = alThrows err := by
  unfold alCheckError alThrows
  split_ifs <;> simp_all [isErr]

theorem isErr_alcCheckError (err : Int) (f : String) (l : Nat) :
    isErr (alcCheckError err f l) = alcThrows err := by
  unfold alcCheckError alcThrows
  split_ifs <;> simp_all [isErr]

theorem isErr_false_iff (x : Except String Unit) :
    isErr x = false ↔ x = Except.ok () := by
  cases x with
  | error e => simp [isErr]
  | ok u => cases u; simp [isErr]

theorem alCheckError_of_noThrow (err : Int) (f : String) (l : Nat)
    (h : alThrows err = false) : alCheckError err f l = Except.ok () := by
  rw [← isErr_false_iff, isErr_alCheckError, h]

-- Characterizations of the five `destroy()` implementations: the trace they
-- produce, whether they throw, and the handle the object holds afterwards.

theorem buffer_destroy_trace (h err : Int) :
    (Buffer.destroy h err).1 =
      if h = 0 then [] else [Step.call "alDeleteBuffers" [h], Step.alCheck 232] := by
  unfold Buffer.destroy
  by_cases hh : h = 0
  · simp [hh]
  · cases hA : alCheckError err alCppFile 232 <;> simp [hh, hA]

theorem buffer_destroy_exc (h err : Int) :
    isErr (Buffer.destroy h err).2.1 = (decide (h ≠ 0) && alThrows err) := by
  have hE := isErr_alCheckError err alCppFile 232
  unfold Buffer.destroy
  by_cases hh : h = 0
  · simp [hh, isErr]
  · cases hA : alCheckError err alCppFile 232 with
    | error e =>
      rw [hA] at hE
      simp [hh, hA, ← hE, isErr]
    | ok u =>
      cases u
      rw [hA] at hE
      simp [hh, hA, ← hE, isErr]

theorem buffer_destroy_handle (h err : Int) :
    (Buffer.destroy h err).2.2 = if h ≠ 0 ∧ alThrows err = true then h else 0 := by
  have hE := isErr_alCheckError err alCppFile 232
  unfold Buffer.destroy
  by_cases hh : h = 0
  · simp [hh]
  · cases hA : alCheckError err alCppFile 232 with
    | error e =>
      have hT : alThrows err = true := by rw [← hE, hA]; rfl
      simp [hh, hA, hT]
    | ok u =>
      cases u
      have hT : alThrows err = false := by rw [← hE, hA]; rfl
      simp [hh, hA, hT]

theorem buffer_gen_handle (h eD g eG : Int) :
    (Buffer.gen h eD g eG).2.2 = if h ≠ 0 ∧ alThrows eD = true then h else g := by
  have e1 := buffer_destroy_exc h eD
  have e2 := buffer_destroy_handle h eD
  unfold Buffer.gen
  rcases hD : Buffer.destroy h eD with ⟨tr, exc, h2⟩
  rw [hD] at e1 e2
  cases exc with
  | error e =>
    simp [isErr] at e1
    simp at e2 ⊢
    rw [e2, if_pos]
    · rw [if_pos]
      exact ⟨e1.1, e1.2⟩
    · exact ⟨e1.1, e1.2⟩
  | ok u =>
    cases u
    simp [isErr] at e1
    simp at e2 ⊢
    have hc : ¬(¬h = 0 ∧ alThrows eD = true) := by
      rintro ⟨hne, hthrow⟩
      exact absurd (e1 hne) (by simp [hthrow])
    rw [if_neg hc]

theorem source_destroy_trace (h err : Int) :
    (Source.destroy h err).1 =
      if h = 0 then [] else [Step.call "alDeleteSources" [h], Step.alCheck 379] := by
  unfold Source.destroy
  by_cases hh : h = 0
  · simp [hh]
  · cases hA : alCheckError err alCppFile 379 <;> simp [hh, hA]

theorem source_destroy_exc (h err : Int) :
    isErr (Source.destroy h err).2.1 = (decide (h ≠ 0) && alThrows err) := by
  have hE := isErr_alCheckError err alCppFile 379
  unfold Source.destroy
  by_cases hh : h = 0
  · simp [hh, isErr]
  · cases hA : alCheckError err alCppFile 379 with
    | error e =>
      rw [hA] at hE
      simp [hh, hA, ← hE, isErr]
    | ok u =>
      cases u
      rw [hA] at hE
      simp [hh, hA, ← hE, isErr]

theorem source_destroy_handle (h err : Int) :
    (Source.destroy h err).2.2 = if h ≠ 0 ∧ alThrows err = true then h else 0 := by
  have hE := isErr_alCheckError err alCppFile 379
  unfold Source.destroy
  by_cases hh : h = 0
  · simp [hh]
  · cases hA : alCheckError err alCppFile 379 with
    | error e =>
      have hT : alThrows err = true := by rw [← hE, hA]; rfl
      simp [hh, hA, hT]
    | ok u =>
      cases u
      have hT : alThrows err = false := by rw [← hE, hA]; rfl
      simp [hh, hA, hT]

theorem source_gen_handle (h eD g eG : Int) :
    (Source.gen h eD g eG).2.2 = if h ≠ 0 ∧ alThrows eD = true then h else g := by
  have e1 := source_destroy_exc h eD
  have e2 := source_destroy_handle h eD
  unfold Source.gen
  rcases hD : Source.destroy h eD with ⟨tr, exc, h2⟩
  rw [hD] at e1 e2
  cases exc with
  | error e =>
    simp [isErr] at e1
    simp at e2 ⊢
    rw [e2, if_pos]
    · rw [if_pos]
      exact ⟨e1.1, e1.2⟩
    · exact ⟨e1.1, e1.2⟩
  | ok u =>
    cases u
    simp [isErr] at e1
    simp at e2 ⊢
    have hc : ¬(¬h = 0 ∧ alThrows eD = true) := by
      rintro ⟨hne, hthrow⟩
      exact absurd (e1 hne) (by simp [hthrow])
    rw [if_neg hc]

theorem filter_destroy_trace (h err : Int) :
    (Filter.destroy h err).1 =
      if h = 0 then [] else [Step.call "alDeleteFilters" [h], Step.alCheck 464] := by
  unfold Filter.destroy
  by_cases hh : h = 0
  · simp [hh]
  · cases hA : alCheckError err alCppFile 464 <;> simp [hh, hA]

theorem filter_destroy_exc (h err : Int) :
    isErr (Filter.destroy h err).2.1 = (decide (h ≠ 0) && alThrows err) := by
  have hE := isErr_alCheckError err alCppFile 464
  unfold Filter.destroy
  by_cases hh : h = 0
  · simp [hh, isErr]
  · cases hA : alCheckError err alCppFile 464 with
    | error e =>
      rw [hA] at hE
      simp [hh, hA, ← hE, isErr]
    | ok u =>
      cases u
      rw [hA] at hE
      simp [hh, hA, ← hE, isErr]

theorem filter_destroy_handle (h err : Int) :
    (Filter.destroy h err).2.2 = if h ≠ 0 ∧ alThrows err = true then h else 0 := by
  have hE := isErr_alCheckError err alCppFile 464
  unfold Filter.destroy
  by_cases hh : h = 0
  · simp [hh]
  · cases hA : alCheckError err alCppFile 464 with
    | error e =>
      have hT : alThrows err = true := by rw [← hE, hA]; rfl
      simp [hh, hA, hT]
    | ok u =>
      cases u
      have hT : alThrows err = false := by rw [← hE, hA]; rfl
      simp [hh, hA, hT]

theorem filter_gen_handle (h eD g eG : Int) :
    (Filter.gen h eD g eG).2.2 = if h ≠ 0 ∧ alThrows eD = true then h else g := by
  have e1 := filter_destroy_exc h eD
  have e2 := filter_destroy_handle h eD
  unfold Filter.gen
  rcases hD : Filter.destroy h eD with ⟨tr, exc, h2⟩
  rw [hD] at e1 e2
  cases exc with
  | error e =>
    simp [isErr] at e1
    simp at e2 ⊢
    rw [e2, if_pos]
    · rw [if_pos]
      exact ⟨e1.1, e1.2⟩
    · exact ⟨e1.1, e1.2⟩
  | ok u =>
    cases u
    simp [isErr] at e1
    simp at e2 ⊢
    have hc : ¬(¬h = 0 ∧ alThrows eD = true) := by
      rintro ⟨hne, hthrow⟩
      exact absurd (e1 hne) (by simp [hthrow])
    rw [if_neg hc]

theorem effect_destroy_trace (h err : Int) :
    (Effect.destroy h err).1 =
      if h = 0 then [] else [Step.call "alDeleteEffects" [h], Step.alCheck 520] := by
  unfold Effect.destroy
  by_cases hh : h = 0
  · simp [hh]
  · cases hA : alCheckError err alCppFile 520 <;> simp [hh, hA]

theorem effect_destroy_exc (h err : Int) :
    isErr (Effect.destroy h err).2.1 = (decide (h ≠ 0) && alThrows err) := by
  have hE := isErr_alCheckError err alCppFile 520
  unfold Effect.destroy
  by_cases hh : h = 0
  · simp [hh, isErr]
  · cases hA : alCheckError err alCppFile 520 with
    | error e =>
      rw [hA] at hE
      simp [hh, hA, ← hE, isErr]
    | ok u =>
      cases u
      rw [hA] at hE
      simp [hh, hA, ← hE, isErr]

theorem effect_destroy_handle (h err : Int) :
    (Effect.destroy h err).2.2 = if h ≠ 0 ∧ alThrows err = true then h else 0 := by
  have hE := isErr_alCheckError err alCppFile 520
  unfold Effect.destroy
  by_cases hh : h = 0
  · simp [hh]
  · cases hA : alCheckError err alCppFile 520 with
    | error e =>
      have hT : alThrows err = true := by rw [← hE, hA]; rfl
      simp [hh, hA, hT]
    | ok u =>
      cases u
      have hT : alThrows err = false := by rw [← hE, hA]; rfl
      simp [hh, hA, hT]

theorem effect_gen_handle (h eD g eG : Int) :
    (Effect.gen h eD g eG).2.2 = if h ≠ 0 ∧ alThrows eD = true then h else g := by
  have e1 := effect_destroy_exc h eD
  have e2 := effect_destroy_handle h eD
  unfold Effect.gen
  rcases hD : Effect.destroy h eD with ⟨tr, exc, h2⟩
  rw [hD] at e1 e2
  cases exc with
  | error e =>
    simp [isErr] at e1
    simp at e2 ⊢
    rw [e2, if_pos]
    · rw [if_pos]
      exact ⟨e1.1, e1.2⟩
    · exact ⟨e1.1, e1.2⟩
  | ok u =>
    cases u
    simp [isErr] at e1
    simp at e2 ⊢
    have hc : ¬(¬h = 0 ∧ alThrows eD = true) := by
      rintro ⟨hne, hthrow⟩
      exact absurd (e1 hne) (by simp [hthrow])
    rw [if_neg hc]

theorem auxSlot_destroy_trace (h err : Int) :
    (AuxiliaryEffectsSlot.destroy h err).1 =
      if h = 0 then [] else [Step.call "alDeleteAuxiliaryEffectSlots" [h], Step.alCheck 554] := by
  unfold AuxiliaryEffectsSlot.destroy
  by_cases hh : h = 0
  · simp [hh]
  · cases hA : alCheckError err alCppFile 554 <;> simp [hh, hA]

theorem auxSlot_destroy_exc (h err : Int) :
    isErr (AuxiliaryEffectsSlot.destroy h err).2.1 = (decide (h ≠ 0) && alThrows err) := by
  have hE := isErr_alCheckError err alCppFile 554
  unfold AuxiliaryEffectsSlot.destroy
  by_cases hh : h = 0
  · simp [hh, isErr]
  · cases hA : alCheckError err alCppFile 554 with
    | error e =>
      rw [hA] at hE
      simp [hh, hA, ← hE, isErr]
    | ok u =>
      cases u
      rw [hA] at hE
      simp [hh, hA, ← hE, isErr]

theorem auxSlot_destroy_handle (h err : Int) :
    (AuxiliaryEffectsSlot.destroy h err).2.2 = if h ≠ 0 ∧ alThrows err = true then h else 0 := by
  have hE := isErr_alCheckError err alCppFile 554
  unfold AuxiliaryEffectsSlot.destroy
  by_cases hh : h = 0
  · simp [hh]
  · cases hA : alCheckError err alCppFile 554 with
    | error e =>
      have hT : alThrows err = true := by rw [← hE, hA]; rfl
      simp [hh, hA, hT]
    | ok u =>
      cases u
      have hT : alThrows err = false := by rw [← hE, hA]; rfl
      simp [hh, hA, hT]

theorem auxSlot_gen_handle (h eD g eG : Int) :
    (AuxiliaryEffectsSlot.gen h eD g eG).2.2 = if h ≠ 0 ∧ alThrows eD = true then h else g := by
  have e1 := auxSlot_destroy_exc h eD
  have e2 := auxSlot_destroy_handle h eD
  unfold AuxiliaryEffectsSlot.gen
  rcases hD : AuxiliaryEffectsSlot.destroy h eD with ⟨tr, exc, h2⟩
  rw [hD] at e1 e2
  cases exc with
  | error e =>
    simp [isErr] at e1
    simp at e2 ⊢
    rw [e2, if_pos]
    · rw [if_pos]
      exact ⟨e1.1, e1.2⟩
    · exact ⟨e1.1, e1.2⟩
  | ok u =>
    cases u
    simp [isErr] at e1
    simp at e2 ⊢
    have hc : ¬(¬h = 0 ∧ alThrows eD = true) := by
      rintro ⟨hne, hthrow⟩
      exact absurd (e1 hne) (by simp [hthrow])
    rw [if_neg hc]

theorem buffer_moveAssign_handles (dst src err : Int) :
    (Buffer.moveAssign dst src err).2.2 =
      if dst ≠ 0 ∧ alThrows err = true then (dst, src) else (src, 0) := by
  have e1 := buffer_destroy_exc dst err
  have e2 := buffer_destroy_handle dst err
  unfold Buffer.moveAssign
  rcases hD : Buffer.destroy dst err with ⟨tr, exc, h2⟩
  rw [hD] at e1 e2
  cases exc with
  | error e =>
    simp [isErr] at e1
    simp at e2 ⊢
    rw [e2]
    rw [if_pos ⟨e1.1, e1.2⟩]
    rw [if_pos ⟨e1.1, e1.2⟩]
  | ok u =>
    cases u
    simp [isErr] at e1
    simp at e2 ⊢
    have hc : ¬(¬dst = 0 ∧ alThrows err = true) := by
      rintro ⟨hne, hthrow⟩
      exact absurd (e1 hne) (by simp [hthrow])
    rw [if_neg hc]

theorem source_moveAssign_handles (dst src err : Int) :
    (Source.moveAssign dst src err).2.2 =
      if dst ≠ 0 ∧ alThrows err = true then (dst, src) else (src, 0) := by
  have e1 := source_destroy_exc dst err
  have e2 := source_destroy_handle dst err
  unfold Source.moveAssign
  rcases hD : Source.destroy dst err with ⟨tr, exc, h2⟩
  rw [hD] at e1 e2
  cases exc with
  | error e =>
    simp [isErr] at e1
    simp at e2 ⊢
    rw [e2]
    rw [if_pos ⟨e1.1, e1.2⟩]
    rw [if_pos ⟨e1.1, e1.2⟩]
  | ok u =>
    cases u
    simp [isErr] at e1
    simp at e2 ⊢
    have hc : ¬(¬dst = 0 ∧ alThrows err = true) := by
      rintro ⟨hne, hthrow⟩
      exact absurd (e1 hne) (by simp [hthrow])
    rw [if_neg hc]

theorem Context.Options.add_append (l vs : List Int) :
    Context.Options.add (l ++ [0]) vs = (l ++ vs) ++ [0] := by
  unfold Context.Options.add
  have h1 : (l ++ [0]).length - 1 = l.length := by simp
  rw [h1, List.take_left, List.drop_left, List.append_assoc]

theorem Context.Options.foldl_add (acc : List Int) (calls : List (List Int)) :
    List.foldl Context.Options.add (acc ++ [0]) calls = (acc ++ calls.flatten) ++ [0] := by
  induction calls generalizing acc with
  | nil => simp
  | cons v cs ih =>
    rw [List.foldl_cons, Context.Options.add_append, ih]
    simp

-- =============================================================
-- The claims
-- =============================================================

/-- Claim C8: for every supported format, DecomposeFormat succeeds and yields
a mono format and a channel count in range 1-2 such that MultiChannelFormat
recomposes the original format: decompose followed by recompose is the
identity on supported formats. -/
theorem claim_C8_theorem (fmt : Format) :
    ∃ m c, DecomposeFormat fmt = Except.ok (m, c) ∧ (c = 1 ∨ c = 2) ∧
      Format.isMono m = true ∧ MultiChannelFormat m c = Except.ok fmt := by
  cases fmt <;> exact ⟨_, _, rfl, by decide, rfl, rfl⟩

/-- Claim C9: MultiChannelFormat returns its first argument unchanged for
channel count 1 (even on a stereo argument); for channel count 2 it maps
Mono8, Mono16, MonoF32 to Stereo8, Stereo16, StereoF32 and throws for every
other first argument; and it throws for every channel count other than 1 and
2. -/
theorem claim_C9_theorem :
    (∀ fmt : Format, MultiChannelFormat fmt 1 = Except.ok fmt)
  ∧ MultiChannelFormat Format.Mono8 2 = Except.ok Format.Stereo8
  ∧ MultiChannelFormat Format.Mono16 2 = Except.ok Format.Stereo16
  ∧ MultiChannelFormat Format.MonoF32 2 = Except.ok Format.StereoF32
  ∧ (∀ fmt : Format, Format.isMono fmt = false →
      MultiChannelFormat fmt 2 = Except.error "Argument mono is not a mono format!")
  ∧ (∀ (fmt : Format) (c : Nat), c ≠ 1 → c ≠ 2 →
      MultiChannelFormat fmt c = Except.error ("Unsupported number of channels: " ++ toString c)) := by
  refine ⟨fun fmt => rfl, rfl, rfl, rfl, ?_, ?_⟩
  · intro fmt h
    cases fmt <;> first | rfl | simp [Format.isMono] at h
  · intro fmt c h1 h2
    unfold MultiChannelFormat
    rw [if_neg h1, if_neg h2]

/-- Witness for claim C9 at concrete inputs: a stereo first argument with
channel count 2 throws the mono-format error, and channel count 5 throws the
unsupported-channel-count error. -/
theorem claim_C9_witness :
    MultiChannelFormat Format.Stereo8 2 = Except.error "Argument mono is not a mono format!"
  ∧ MultiChannelFormat Format.Mono8 5 =
      Except.error ("Unsupported number of channels: " ++ toString (5 : Nat)) :=
  ⟨claim_C9_theorem.2.2.2.2.1 Format.Stereo8 rfl,
   claim_C9_theorem.2.2.2.2.2 Format.Mono8 5 (by decide) (by decide)⟩

/-- Claim C10: after any sequence of `add` calls starting from the initial
options vector, the vector `get()` exposes is exactly the added values in
call order followed by the single trailing 0 terminator: the terminator is
never overwritten or duplicated. -/
theorem claim_C10_theorem (calls : List (List Int)) :
    List.foldl Context.Options.add Context.Options.optionsInit calls = calls.flatten ++ [0] := by
  have h := Context.Options.foldl_add [] calls
  simpa [Context.Options.optionsInit] using h

/-- Claim C5: `SourceView::queueBuffer(b)` is exactly `queueBuffers` on the
one-element array containing `b`, and `unqueueBuffer()` returns exactly the
buffer handle that `unqueueBuffers` writes into a one-element array when
called with count 1 — with identical traces and outcomes in both
directions. -/
theorem claim_C5_theorem :
    (∀ mHandle buffer err : Int,
      SourceView.queueBuffer mHandle buffer err = SourceView.queueBuffers mHandle [buffer] 1 err)
  ∧ (∀ (mHandle : Int) (written : Nat → Int) (err : Int),
      (SourceView.unqueueBuffer mHandle written err).1 = (SourceView.unqueueBuffers mHandle 1 written err).1
      ∧ (SourceView.unqueueBuffer mHandle written err).2.1 = (SourceView.unqueueBuffers mHandle 1 written err).2.1
      ∧ (SourceView.unqueueBuffers mHandle 1 written err).2.2 = [written 0]
      ∧ (SourceView.unqueueBuffer mHandle written err).2.2 =
          ((SourceView.unqueueBuffers mHandle 1 written err).2.2).headD 0) :=
  ⟨fun _ _ _ => rfl, fun _ _ _ => ⟨rfl, rfl, rfl, rfl⟩⟩

/-- Claim C4: contrary to the claim, the native calls `EffectView::geti` and
`EffectView::getf` make are `alGetFilteri` and `alGetFilterf` — the
filter-parameter queries — applied to the effect handle, not the
effect-parameter get calls (which `EffectView::set`, using `alEffecti` /
`alEffectf`, would pair with).  Evaluated here at effect handle 3 and
parameter 1. -/
theorem claim_C4_theorem :
    (EffectView.geti 3 1 0 0).1 = [Step.call "alGetFilteri" [3, 1], Step.alCheck 482]
  ∧ (EffectView.getf 3 1 0).1 = [Step.call "alGetFilterf" [3, 1], Step.alCheck 487]
  ∧ (EffectView.seti 3 1 2 0).1 = [Step.call "alEffecti" [3, 1, 2], Step.alCheck 479] :=
  ⟨rfl, rfl, rfl⟩

/-- Claim C2: for every handle-owning wrapper, operator bool is true exactly
on a non-null handle; destroy() makes no driver call on an already-null
handle and leaves it null; and after a destroy() whose error check passes the
stored handle is null (the third group gives the full final-handle equation:
null unless the check threw).  Device has no destroy() member; its
resource-release path is the destructor (and the move-assignment), modelled
by `Device.dtor`, which likewise makes no driver call on a null handle. -/
theorem claim_C2_theorem :
    ((∀ h : Int, (DeviceView.toBool h = true ↔ h ≠ 0))
   ∧ (∀ h : Int, (BufferView.toBool h = true ↔ h ≠ 0))
   ∧ (∀ h : Int, (SourceView.toBool h = true ↔ h ≠ 0))
   ∧ (∀ h : Int, (FilterView.toBool h = true ↔ h ≠ 0))
   ∧ (∀ h : Int, (EffectView.toBool h = true ↔ h ≠ 0))
   ∧ (∀ h : Int, (AuxiliaryEffectsSlotView.toBool h = true ↔ h ≠ 0)))
  ∧ ((∀ err, Buffer.destroy 0 err = ([], Except.ok (), 0))
   ∧ (∀ err, Source.destroy 0 err = ([], Except.ok (), 0))
   ∧ (∀ err, Filter.destroy 0 err = ([], Except.ok (), 0))
   ∧ (∀ err, Effect.destroy 0 err = ([], Except.ok (), 0))
   ∧ (∀ err, AuxiliaryEffectsSlot.destroy 0 err = ([], Except.ok (), 0))
   ∧ Device.dtor 0 = [])
  ∧ ((∀ h err, (Buffer.destroy h err).2.2 = if h ≠ 0 ∧ alThrows err = true then h else 0)
   ∧ (∀ h err, (Source.destroy h err).2.2 = if h ≠ 0 ∧ alThrows err = true then h else 0)
   ∧ (∀ h err, (Filter.destroy h err).2.2 = if h ≠ 0 ∧ alThrows err = true then h else 0)
   ∧ (∀ h err, (Effect.destroy h err).2.2 = if h ≠ 0 ∧ alThrows err = true then h else 0)
   ∧ (∀ h err, (AuxiliaryEffectsSlot.destroy h err).2.2 = if h ≠ 0 ∧ alThrows err = true then h else 0)) := by
  refine ⟨⟨?_, ?_, ?_, ?_, ?_, ?_⟩,
    ⟨fun _ => rfl, fun _ => rfl, fun _ => rfl, fun _ => rfl, fun _ => rfl, rfl⟩,
    buffer_destroy_handle, source_destroy_handle, filter_destroy_handle,
    effect_destroy_handle, auxSlot_destroy_handle⟩
  · intro h
    simp [DeviceView.toBool]
  · intro h
    simp [BufferView.toBool]
  · intro h
    simp [SourceView.toBool]
  · intro h
    simp [FilterView.toBool]
  · intro h
    simp [EffectView.toBool]
  · intro h
    simp [AuxiliaryEffectsSlotView.toBool]

/-- Claim C3 counterexample: Filter, Effect and AuxiliaryEffectsSlot do NOT
have move-only ownership with transferring moves — AL.hpp lines 177-180,
240-243 and 267-270 delete their move constructor and move assignment along
with the copy operations, so these owning types cannot be moved at all. -/
theorem claim_C3_counterexample :
    moveOnlyValueType Filter.specialMembers = false
  ∧ moveOnlyValueType Effect.specialMembers = false
  ∧ moveOnlyValueType AuxiliaryEffectsSlot.specialMembers = false := by decide

/-- Claim C3 (amended): Device, Buffer and Source are move-only value types
whose move construction and move assignment transfer the handle and null the
moved-from object (on move assignment, after the destination's old resource
is released; the full equation shows the transfer happens exactly when that
release does not throw); Filter, Effect and AuxiliaryEffectsSlot prohibit
copy AND move construction/assignment entirely; and every destructor
releases the held driver resource via the type's delete call when the handle
is non-null. -/
theorem claim_C3_theorem :
    (moveOnlyValueType Device.specialMembers = true
   ∧ moveOnlyValueType Buffer.specialMembers = true
   ∧ moveOnlyValueType Source.specialMembers = true)
  ∧ (Filter.specialMembers.hasMoveCtor = false ∧ Filter.specialMembers.hasMoveAssign = false
   ∧ Filter.specialMembers.hasCopyCtor = false ∧ Filter.specialMembers.hasCopyAssign = false
   ∧ Effect.specialMembers.hasMoveCtor = false ∧ Effect.specialMembers.hasMoveAssign = false
   ∧ Effect.specialMembers.hasCopyCtor = false ∧ Effect.specialMembers.hasCopyAssign = false
   ∧ AuxiliaryEffectsSlot.specialMembers.hasMoveCtor = false
   ∧ AuxiliaryEffectsSlot.specialMembers.hasMoveAssign = false
   ∧ AuxiliaryEffectsSlot.specialMembers.hasCopyCtor = false
   ∧ AuxiliaryEffectsSlot.specialMembers.hasCopyAssign = false)
  ∧ ((∀ src, Device.moveCtor src = (src, 0))
   ∧ (∀ src, Buffer.moveCtor src = (src, 0))
   ∧ (∀ src, Source.moveCtor src = (src, 0))
   ∧ (∀ dst src, Device.moveAssign dst src =
        ((if dst = 0 then [] else [Step.call "alcCloseDevice" [dst]]), src, 0))
   ∧ (∀ dst src err, (Buffer.moveAssign dst src err).2.2 =
        if dst ≠ 0 ∧ alThrows err = true then (dst, src) else (src, 0))
   ∧ (∀ dst src err, (Source.moveAssign dst src err).2.2 =
        if dst ≠ 0 ∧ alThrows err = true then (dst, src) else (src, 0)))
  ∧ ((∀ h err, (Buffer.dtor h err).1 =
        if h = 0 then [] else [Step.call "alDeleteBuffers" [h], Step.alCheck 232])
   ∧ (∀ h err, (Source.dtor h err).1 =
        if h = 0 then [] else [Step.call "alDeleteSources" [h], Step.alCheck 379])
   ∧ (∀ h err, (Filter.dtor h err).1 =
        if h = 0 then [] else [Step.call "alDeleteFilters" [h], Step.alCheck 464])
   ∧ (∀ h err, (Effect.dtor h err).1 =
        if h = 0 then [] else [Step.call "alDeleteEffects" [h], Step.alCheck 520])
   ∧ (∀ h err, (AuxiliaryEffectsSlot.dtor h err).1 =
        if h = 0 then [] else [Step.call "alDeleteAuxiliaryEffectSlots" [h], Step.alCheck 554])
   ∧ (∀ h, Device.dtor h = if h = 0 then [] else [Step.call "alcCloseDevice" [h]])) := by
  refine ⟨by decide, by decide,
    ⟨fun _ => rfl, fun _ => rfl, fun _ => rfl, fun _ _ => rfl,
     buffer_moveAssign_handles, source_moveAssign_handles⟩,
    ⟨buffer_destroy_trace, source_destroy_trace, filter_destroy_trace,
     effect_destroy_trace, auxSlot_destroy_trace, fun _ => rfl⟩⟩

/-- Claim C6 counterexample: Buffer::gen on a buffer holding handle 5, with
the destroy succeeding, the driver writing generated name 7 into mHandle and
then reporting AL_OUT_OF_MEMORY: the error check throws, yet the stored
handle is 7 — the driver-written value, not the previous handle — because
`alGenBuffers(1, &mHandle)` overwrites the member before AL_CHECK_ERROR
runs. -/
theorem claim_C6_counterexample :
    isErr (Buffer.gen 5 0 7 AL_OUT_OF_MEMORY).2.1 = true
  ∧ (Buffer.gen 5 0 7 AL_OUT_OF_MEMORY).2.2 = 7 := by decide

/-- Claim C6 (amended): no retry or recovery exists; for destroy() the
stored handle is reset to null only after the error check passes, so on a
thrown error the object still holds its previous handle; for gen(), however,
the generate call itself writes the driver-produced name into the stored
handle BEFORE the error check, so when that check throws the object holds
the newly written name rather than its previous handle (the previous handle
is kept only when the destroy() phase of gen() throws first). -/
theorem claim_C6_theorem :
    ((∀ h err, (Buffer.destroy h err).2.2 = if h ≠ 0 ∧ alThrows err = true then h else 0)
   ∧ (∀ h err, (Source.destroy h err).2.2 = if h ≠ 0 ∧ alThrows err = true then h else 0)
   ∧ (∀ h err, (Filter.destroy h err).2.2 = if h ≠ 0 ∧ alThrows err = true then h else 0)
   ∧ (∀ h err, (Effect.destroy h err).2.2 = if h ≠ 0 ∧ alThrows err = true then h else 0)
   ∧ (∀ h err, (AuxiliaryEffectsSlot.destroy h err).2.2 = if h ≠ 0 ∧ alThrows err = true then h else 0))
  ∧ ((∀ h eD g eG, (Buffer.gen h eD g eG).2.2 = if h ≠ 0 ∧ alThrows eD = true then h else g)
   ∧ (∀ h eD g eG, (Source.gen h eD g eG).2.2 = if h ≠ 0 ∧ alThrows eD = true then h else g)
   ∧ (∀ h eD g eG, (Filter.gen h eD g eG).2.2 = if h ≠ 0 ∧ alThrows eD = true then h else g)
   ∧ (∀ h eD g eG, (Effect.gen h eD g eG).2.2 = if h ≠ 0 ∧ alThrows eD = true then h else g)
   ∧ (∀ h eD g eG, (AuxiliaryEffectsSlot.gen h eD g eG).2.2 = if h ≠ 0 ∧ alThrows eD = true then h else g)) :=
  ⟨⟨buffer_destroy_handle, source_destroy_handle, filter_destroy_handle,
    effect_destroy_handle, auxSlot_destroy_handle⟩,
   ⟨buffer_gen_handle, source_gen_handle, filter_gen_handle,
    effect_gen_handle, auxSlot_gen_handle⟩⟩

/-- Claim C7: Context::init is a direct synchronous sequence of driver calls
whose only state is the stored context handle; with no driver-reported
errors it first runs close() on any currently held context, then takes the
device supplied in the options or opens the driver's default device when
none is supplied, creates a context from that device and the options array,
makes the new context current, and ends with a bare `alGetError()` that
clears the driver's pending error state; the stored handle becomes the
created context. -/
theorem claim_C7_theorem (ctx optDev : Int) (attrs : List Int) (defDev created dev : Int) :
    Context.init ctx optDev attrs defDev created dev 0 0 0 0 0 0 =
      ((if ctx = 0 then [] else
          [Step.call "alcGetContextsDevice" [ctx], Step.alcCheck 140,
           Step.call "alcMakeContextCurrent" [0], Step.alcCheck 141,
           Step.call "alcDestroyContext" [ctx], Step.alcCheck 142,
           Step.call "alcCloseDevice" [dev]])
        ++ (if optDev = 0 then [Step.call "alcOpenDevice" [], Step.alcCheck 130] else [])
        ++ [Step.call "alcCreateContext" ((if optDev = 0 then defDev else optDev) :: attrs),
            Step.alcCheck 132,
            Step.call "alcMakeContextCurrent" [created], Step.alcCheck 133,
            Step.call "alGetError" []],
       Except.ok (), created) := by
  unfold Context.init Context.close Context.initRest
  by_cases hc : ctx = 0 <;> by_cases ho : optDev = 0 <;>
    simp [hc, ho, seqSteps, alcCheckedCall, uncheckedCall, alcCheckError, ALC_NO_ERROR]

/-- Claim C1 counterexample: `AuxiliaryEffectsSlotView::gain` is a wrapped
operation (AL.cpp lines 534-536) whose native call `alAuxiliaryEffectSlotf`
is followed by no error check at all, so the claim that every wrapped
operation checks the driver's last-error code after its native call is
false. -/
theorem claim_C1_counterexample :
    ("AuxiliaryEffectsSlotView.gain", (AuxiliaryEffectsSlotView.gain 1).1) ∈ wrappedOpTraces
  ∧ allCallsChecked (AuxiliaryEffectsSlotView.gain 1).1 = false := by
  constructor
  · decide
  · rfl

/-- Claim C1 (amended): every wrapped operation except the DeviceView
accessors, Device open/close, Context::device, Context::close (whose final
alcCloseDevice is unchecked), Context::init (whose final alGetError is the
deliberate error-state clear) and the two auxiliary-effect-slot setters
gain / auxiliarySendAuto has each native driver call immediately followed by
an error-check macro expansion; and the check functions convert each of the
recognized non-success last-error codes into a thrown error whose message
carries the code's name and the call site as file:line. -/
theorem claim_C1_theorem :
    (∀ p ∈ wrappedOpTraces, p.1 ∉ uncheckedOps → allCallsChecked p.2 = true)
  ∧ (∀ (f : String) (l : Nat), alCheckError AL_NO_ERROR f l = Except.ok ())
  ∧ (∀ (f : String) (l : Nat), alCheckError AL_INVALID_NAME f l =
      Except.error ("AL_INVALID_NAME: a bad name (ID) was passed to an OpenAL function at " ++ f ++ ":" ++ toString l))
  ∧ (∀ (f : String) (l : Nat), alCheckError AL_INVALID_ENUM f l =
      Except.error ("AL_INVALID_ENUM: an invalid enum value was passed to an OpenAL function at " ++ f ++ ":" ++ toString l))
  ∧ (∀ (f : String) (l : Nat), alCheckError AL_INVALID_VALUE f l =
      Except.error ("AL_INVALID_VALUE: an invalid value was passed to an OpenAL function at " ++ f ++ ":" ++ toString l))
  ∧ (∀ (f : String) (l : Nat), alCheckError AL_INVALID_OPERATION f l =
      Except.error ("AL_INVALID_OPERATION: the requested operation is not valid at " ++ f ++ ":" ++ toString l))
  ∧ (∀ (f : String) (l : Nat), alCheckError AL_OUT_OF_MEMORY f l =
      Except.error ("AL_OUT_OF_MEMORY: allocation failed at " ++ f ++ ":" ++ toString l))
  ∧ (∀ (f : String) (l : Nat), alcCheckError ALC_NO_ERROR f l = Except.ok ())
  ∧ (∀ (f : String) (l : Nat), alcCheckError ALC_INVALID_DEVICE f l =
      Except.error ("ALC_INVALID_DEVICE: a bad device was passed to an OpenAL function at " ++ f ++ ":" ++ toString l))
  ∧ (∀ (f : String) (l : Nat), alcCheckError ALC_INVALID_CONTEXT f l =
      Except.error ("ALC_INVALID_CONTEXT: a bad context was passed to an OpenAL function at " ++ f ++ ":" ++ toString l))
  ∧ (∀ (f : String) (l : Nat), alcCheckError ALC_INVALID_ENUM f l =
      Except.error ("ALC_INVALID_ENUM: an unknown enum value was passed to an OpenAL function at " ++ f ++ ":" ++ toString l))
  ∧ (∀ (f : String) (l : Nat), alcCheckError ALC_INVALID_VALUE f l =
      Except.error ("ALC_INVALID_VALUE: an invalid value was passed to an OpenAL function at " ++ f ++ ":" ++ toString l))
  ∧ (∀ (f : String) (l : Nat), alcCheckError ALC_OUT_OF_MEMORY f l =
      Except.error ("ALC_OUT_OF_MEMORY: the requested operation resulted in OpenAL running out of memory at " ++ f ++ ":" ++ toString l)) :=
  ⟨by decide,
   fun _ _ => rfl, fun _ _ => rfl, fun _ _ => rfl, fun _ _ => rfl, fun _ _ => rfl,
   fun _ _ => rfl, fun _ _ => rfl, fun _ _ => rfl, fun _ _ => rfl, fun _ _ => rfl,
   fun _ _ => rfl, fun _ _ => rfl⟩

/-- Witness for the amended claim C1: `BufferView::data` is in the operation
table, is not among the excepted operations, and its trace has its native
call followed by an error check. -/
theorem claim_C1_witness :
    allCallsChecked (BufferView.data 1 2 3 4 0).1 = true :=
  claim_C1_theorem.1 ("BufferView.data", (BufferView.data 1 2 3 4 0).1) (by decide) (by decide)
